import Mathlib

/-!
Verification of the conversation/session subsystem of the OpenHeart AI
companion service (`backend/ai_services/ai_companion.py`,
`backend/ai_services/language_detector.py`, `backend/routes/ai_sessions.py`,
`backend/exceptions.py`), shallowly embedded in Lean.

Modelling conventions:
* Python strings are Lean `String`s; `str.lower()` is modelled by ASCII
  case-mapping (`pyLowerChar`), which agrees with Python on every string the
  code compares (all crisis keywords are already lower-case ASCII-cased).
* Python dicts with string keys used as ordered literal tables are modelled as
  association lists (`List (String × String)`), `d.get(k, default)` as
  `dictGet`.
* The per-user in-memory conversation store (`AICompanion.conversation_history`,
  a dict from user id to list) is modelled as a total function
  `String → List Entry`, a missing key being the empty history — observably
  equivalent, since every read uses `.get(user_id, [])`.
* The external OpenAI chat-completion call is an oracle parameter
  `call : List Entry → UpstreamResult`: it returns the completion text or one
  of the three exception classes the code catches (`openai.RateLimitError`,
  `openai.APIError`, any other `Exception`), each carrying its raw detail.
* Timestamps are whole seconds (`Nat`); `int((end - start).total_seconds() / 60)`
  is Nat division by 60 (truncation), which agrees with Python for end ≥ start.
* Database rows (`AISession`, `SessionMessage`) are records; the pending-add /
  commit / rollback discipline of the request handlers is modelled by returning
  the committed row lists: a handler that raises returns its input rows
  unchanged (uncommitted adds are discarded), while the in-memory store keeps
  whatever mutations happened before the raise.
-/

namespace OpenHeart

/-- One role-tagged message, as the dicts `{"role": ..., "content": ...}` that
`AICompanion` keeps in `conversation_history` and sends to the API. -/
structure Entry where
  role : String
  content : String
deriving DecidableEq, Repr

/-- `AICompanion.conversation_history`, keyed by user id; a user with no key
has the empty history (every read is `.get(user_id, [])`). -/
abbrev ConversationStore := String → List Entry

/-- The store of a fresh `AICompanion()` (empty dict). -/
def emptyStore : ConversationStore := fun _ => []

/-- `self.conversation_history[user_id] = history`. -/
def storeSet (store : ConversationStore) (user_id : String) (history : List Entry) :
    ConversationStore :=
  fun u => if u = user_id then history else store u

/-- `AICompanion.max_history_length` (line 12): cap on stored entries. -/
def max_history_length : Nat := 20

/-- `AICompanion.clear_conversation_history`: `del self.conversation_history[user_id]`
(idempotent no-op when the key is absent, since absent reads as `[]`). -/
def clear_conversation_history (store : ConversationStore) (user_id : String) :
    ConversationStore :=
  fun u => if u = user_id then [] else store u

/-- The optional `user_context` dict `{preferred_name, interests, emotional_needs}`
built by the routes from the `UserProfile` row; each field may be `None`. -/
structure UserContext where
  preferred_name : Option String
  interests : Option String
  emotional_needs : Option String
deriving DecidableEq, Repr

/-- Python truthiness of an optional string: `None` and `""` are falsy. -/
def truthy : Option String → Bool
  | none => false
  | some s => !(s == "")

/-- `d.get(k, default)` on a string-keyed dict literal. -/
def dictGet (d : List (String × String)) (k : String) (default : String) : String :=
  match d.find? (fun p => p.1 == k) with
  | some p => p.2
  | none => default

/-- `base_prompts['en']` in `AICompanion.get_system_prompt`. -/
def prompt_en : String := "You are a compassionate AI companion providing emotional support through OpenHeart. \n            Your role is to listen actively, respond with empathy, and provide non-judgmental support.\n            \n            Guidelines:\n            - Be warm, understanding, and genuinely caring\n            - Listen without trying to \"fix\" everything\n            - Validate emotions and experiences\n            - Ask thoughtful follow-up questions\n            - Offer gentle encouragement when appropriate\n            - Respect boundaries and cultural differences\n            - If someone mentions self-harm or suicide, gently encourage professional help\n            \n            Remember: You're here to provide emotional support, not professional therapy."

/-- `base_prompts['de']`. -/
def prompt_de : String := "Du bist ein mitfühlender KI-Begleiter, der emotionale Unterstützung durch OpenHeart bietet.\n            Deine Aufgabe ist es, aktiv zuzuhören, mit Empathie zu antworten und vorurteilsfreie Unterstützung zu bieten.\n            \n            Richtlinien:\n            - Sei warm, verständnisvoll und aufrichtig fürsorglich\n            - Höre zu, ohne alles \"reparieren\" zu wollen\n            - Bestätige Emotionen und Erfahrungen\n            - Stelle durchdachte Nachfragen\n            - Biete sanfte Ermutigung, wenn angemessen\n            - Respektiere Grenzen und kulturelle Unterschiede\n            - Bei Erwähnung von Selbstverletzung oder Suizid, ermutige sanft zu professioneller Hilfe\n            \n            Denke daran: Du bist hier, um emotionale Unterstützung zu bieten, nicht professionelle Therapie."

/-- `base_prompts['es']`. -/
def prompt_es : String := "Eres un compañero de IA compasivo que brinda apoyo emocional a través de OpenHeart.\n            Tu papel es escuchar activamente, responder con empatía y brindar apoyo sin prejuicios.\n            \n            Pautas:\n            - Sé cálido, comprensivo y genuinamente cariñoso\n            - Escucha sin tratar de \"arreglar\" todo\n            - Valida emociones y experiencias\n            - Haz preguntas de seguimiento reflexivas\n            - Ofrece aliento gentil cuando sea apropiado\n            - Respeta límites y diferencias culturales\n            - Si alguien menciona autolesión o suicidio, alienta gentilmente la ayuda profesional\n            \n            Recuerda: Estás aquí para brindar apoyo emocional, no terapia profesional."

/-- `base_prompts['fr']`. -/
def prompt_fr : String := "Vous êtes un compagnon IA compatissant offrant un soutien émotionnel via OpenHeart.\n            Votre rôle est d'écouter activement, de répondre avec empathie et d'offrir un soutien sans jugement.\n            \n            Directives:\n            - Soyez chaleureux, compréhensif et sincèrement bienveillant\n            - Écoutez sans essayer de tout \"réparer\"\n            - Validez les émotions et expériences\n            - Posez des questions de suivi réfléchies\n            - Offrez des encouragements doux quand approprié\n            - Respectez les limites et différences culturelles\n            - Si quelqu'un évoque l'automutilation ou le suicide, encouragez doucement l'aide professionnelle\n            \n            Rappelez-vous: Vous êtes là pour offrir un soutien émotionnel, pas une thérapie professionnelle."

/-- `base_prompts['it']`. -/
def prompt_it : String := "Sei un compagno IA compassionevole che fornisce supporto emotivo attraverso OpenHeart.\n            Il tuo ruolo è ascoltare attivamente, rispondere con empatia e fornire supporto senza giudizio.\n            \n            Linee guida:\n            - Sii caloroso, comprensivo e genuinamente premuroso\n            - Ascolta senza cercare di \"aggiustare\" tutto\n            - Convalida emozioni ed esperienze\n            - Fai domande di follow-up ponderate\n            - Offri incoraggiamento gentile quando appropriato\n            - Rispetta i confini e le differenze culturali\n            - Se qualcuno menziona autolesionismo o suicidio, incoraggia gentilmente l'aiuto professionale\n            \n            Ricorda: Sei qui per fornire supporto emotivo, non terapia professionale."

/-- `base_prompts['pt']`. -/
def prompt_pt : String := "Você é um companheiro de IA compassivo oferecendo apoio emocional através do OpenHeart.\n            Seu papel é ouvir ativamente, responder com empatia e fornecer apoio sem julgamento.\n            \n            Diretrizes:\n            - Seja caloroso, compreensivo e genuinamente carinhoso\n            - Ouça sem tentar \"consertar\" tudo\n            - Valide emoções e experiências\n            - Faça perguntas de acompanhamento ponderadas\n            - Ofereça encorajamento gentil quando apropriado\n            - Respeite limites e diferenças culturais\n            - Se alguém mencionar autolesão ou suicídio, encoraje gentilmente ajuda profissional\n            \n            Lembre-se: Você está aqui para fornecer apoio emocional, não terapia profissional."

/-- `base_prompts['ru']`. -/
def prompt_ru : String := "Вы - сострадательный ИИ-компаньон, оказывающий эмоциональную поддержку через OpenHeart.\n            Ваша роль - активно слушать, отвечать с эмпатией и оказывать поддержку без осуждения.\n            \n            Рекомендации:\n            - Будьте теплыми, понимающими и искренне заботливыми\n            - Слушайте, не пытаясь все \"исправить\"\n            - Подтверждайте эмоции и переживания\n            - Задавайте вдумчивые уточняющие вопросы\n            - Предлагайте мягкую поддержку, когда уместно\n            - Уважайте границы и культурные различия\n            - Если кто-то упоминает самоповреждение или суицид, мягко поощряйте профессиональную помощь\n            \n            Помните: Вы здесь, чтобы оказывать эмоциональную поддержку, а не профессиональную терапию."

/-- `base_prompts['ja']`. -/
def prompt_ja : String := "あなたはOpenHeartを通じて感情的サポートを提供する思いやりのあるAIコンパニオンです。\n            あなたの役割は積極的に聞き、共感を持って応答し、偏見のないサポートを提供することです。\n            \n            ガイドライン:\n            - 温かく、理解があり、心から思いやりを持つ\n            - すべてを「修正」しようとせずに聞く\n            - 感情や経験を認める\n            - 思慮深いフォローアップ質問をする\n            - 適切な時に優しい励ましを提供する\n            - 境界と文化的違いを尊重する\n            - 自傷や自殺について言及された場合、専門的な助けを優しく勧める\n            \n            覚えておいてください：あなたは感情的サポートを提供するためにここにいるのであり、専門的な治療ではありません。"

/-- `base_prompts['ko']`. -/
def prompt_ko : String := "당신은 OpenHeart를 통해 정서적 지원을 제공하는 자비로운 AI 동반자입니다.\n            당신의 역할은 적극적으로 듣고, 공감으로 응답하며, 편견 없는 지원을 제공하는 것입니다.\n            \n            지침:\n            - 따뜻하고, 이해심 있고, 진심으로 배려하세요\n            - 모든 것을 \"고치려\" 하지 말고 들어주세요\n            - 감정과 경험을 인정해주세요\n            - 사려 깊은 후속 질문을 하세요\n            - 적절할 때 부드러운 격려를 제공하세요\n            - 경계와 문화적 차이를 존중하세요\n            - 자해나 자살을 언급하면 전문적 도움을 부드럽게 권하세요\n            \n            기억하세요: 당신은 정서적 지원을 제공하기 위해 여기 있는 것이지, 전문적인 치료가 아닙니다."

/-- `base_prompts['zh']`. -/
def prompt_zh : String := "你是一个通过OpenHeart提供情感支持的富有同情心的AI伴侣。\n            你的角色是积极倾听，以同理心回应，并提供无偏见的支持。\n            \n            指导原则：\n            - 温暖、理解并真诚关怀\n            - 倾听而不试图\"修复\"一切\n            - 验证情感和经历\n            - 提出深思熟虑的后续问题\n            - 在适当时提供温和的鼓励\n            - 尊重边界和文化差异\n            - 如果有人提到自伤或自杀，温和地鼓励寻求专业帮助\n            \n            记住：你在这里是为了提供情感支持，而不是专业治疗。"

/-- The `base_prompts` table of `AICompanion.get_system_prompt` (lines 82-222):
system prompts exist for exactly these ten language codes. -/
def base_prompts : List (String × String) :=
  [("en", prompt_en), ("de", prompt_de), ("es", prompt_es), ("fr", prompt_fr),
   ("it", prompt_it), ("pt", prompt_pt), ("ru", prompt_ru), ("ja", prompt_ja),
   ("ko", prompt_ko), ("zh", prompt_zh)]

/-- The context-appending tail of `get_system_prompt` (lines 227-234): up to
three clauses, appended in the fixed order interests, emotional needs,
preferred name, each only when its field is truthy. An absent or empty
(`{}` — falsy) context dict appends nothing. -/
def apply_user_context (prompt : String) (user_context : Option UserContext) : String :=
  match user_context with
  | none => prompt
  | some ctx =>
    let prompt := if truthy ctx.interests then
        prompt ++ "\n\nUser interests: " ++ ctx.interests.getD "" else prompt
    let prompt := if truthy ctx.emotional_needs then
        prompt ++ "\nUser's emotional needs: " ++ ctx.emotional_needs.getD "" else prompt
    let prompt := if truthy ctx.preferred_name then
        prompt ++ "\nUser prefers to be called: " ++ ctx.preferred_name.getD "" else prompt
    prompt

/-- `AICompanion.get_system_prompt(language, user_context)`:
`prompt = base_prompts.get(language, base_prompts['en'])`, then the context
clauses are appended (`base_prompts['en'] = prompt_en`). -/
def get_system_prompt (language : String) (user_context : Option UserContext) : String :=
  apply_user_context (dictGet base_prompts language prompt_en) user_context

/-- ASCII case-mapping for one code point, the fragment of Python
`str.lower()` relevant here (every crisis keyword is already lower case). -/
def pyLowerChar (c : Char) : Char :=
  if 65 ≤ c.toNat ∧ c.toNat ≤ 90 then Char.ofNat (c.toNat + 32) else c

/-- `message.lower()` (ASCII fragment). -/
def pyLower (s : String) : String := String.mk (s.toList.map pyLowerChar)

/-- Python `needle in hay` on lists of code points: some (possibly empty)
contiguous slice of `hay` equals `needle`. -/
def listContainsSub (needle : List Char) : List Char → Bool
  | [] => needle.isEmpty
  | c :: rest => needle.isPrefixOf (c :: rest) || listContainsSub needle rest

/-- Python `needle in hay` on strings. -/
def strContainsSub (hay needle : String) : Bool :=
  listContainsSub needle.toList hay.toList

/-- The `crisis_keywords` list of `AICompanion.is_crisis_message`
(lines 258-265), duplicates included as written. -/
def crisis_keywords : List String :=
  ["suicide", "kill myself", "end my life", "want to die", "hurt myself",
   "self harm", "cut myself", "overdose", "jump off", "hang myself",
   "suicidio", "matarme", "morir", "hacerme daño",
   "selbstmord", "umbringen", "sterben", "verletzen",
   "suicide", "me tuer", "mourir", "me faire mal",
   "suicidio", "uccidermi", "morire", "farmi male"]

/-- `AICompanion.is_crisis_message(message)`: lower-case the message, then
check whether any keyword occurs as a substring. -/
def is_crisis_message (message : String) : Bool :=
  let message_lower := pyLower message
  crisis_keywords.any (fun keyword => strContainsSub message_lower keyword)

/-- `LanguageDetector.supported_languages` (language_detector.py lines 12-33). -/
def supported_languages : List (String × String) :=
  [("en", "English"), ("de", "German"), ("es", "Spanish"), ("fr", "French"),
   ("it", "Italian"), ("pt", "Portuguese"), ("ru", "Russian"), ("ja", "Japanese"),
   ("ko", "Korean"), ("zh", "Chinese"), ("ar", "Arabic"), ("hi", "Hindi"),
   ("nl", "Dutch"), ("sv", "Swedish"), ("no", "Norwegian"), ("da", "Danish"),
   ("fi", "Finnish"), ("pl", "Polish"), ("tr", "Turkish"), ("he", "Hebrew")]

/-- The supported language codes (the keys of `supported_languages`). -/
def supported_codes : List String := supported_languages.map Prod.fst

/-- `LanguageDetector.is_supported(language_code)`: key membership. -/
def is_supported (language_code : String) : Bool :=
  supported_languages.any (fun p => p.1 == language_code)

/-- `language_greetings['en']`, also the fallback of `get_greeting`. -/
def greeting_en : String := "Hello! I'm here to listen and support you. How are you feeling today?"

/-- `LanguageDetector.language_greetings` (lines 35-56). -/
def language_greetings : List (String × String) :=
  [("en", greeting_en),
   ("de", "Hallo! Ich bin hier, um zuzuhören und dich zu unterstützen. Wie fühlst du dich heute?"),
   ("es", "¡Hola! Estoy aquí para escuchar y apoyarte. ¿Cómo te sientes hoy?"),
   ("fr", "Bonjour! Je suis là pour écouter et vous soutenir. Comment vous sentez-vous aujourd'hui?"),
   ("it", "Ciao! Sono qui per ascoltare e supportarti. Come ti senti oggi?"),
   ("pt", "Olá! Estou aqui para ouvir e apoiá-lo. Como você está se sentindo hoje?"),
   ("ru", "Привет! Я здесь, чтобы слушать и поддерживать вас. Как вы себя чувствуете сегодня?"),
   ("ja", "こんにちは！私はあなたの話を聞き、サポートするためにここにいます。今日はどんな気分ですか？"),
   ("ko", "안녕하세요! 저는 당신의 이야기를 듣고 지원하기 위해 여기 있습니다. 오늘 기분이 어떠세요?"),
   ("zh", "你好！我在这里倾听并支持你。你今天感觉怎么样？"),
   ("ar", "مرحبا! أنا هنا للاستماع ودعمك. كيف تشعر اليوم؟"),
   ("hi", "नमस्ते! मैं यहाँ आपकी बात सुनने और आपका साथ देने के लिए हूँ। आज आप कैसा महसूस कर रहे हैं?"),
   ("nl", "Hallo! Ik ben hier om te luisteren en je te steunen. Hoe voel je je vandaag?"),
   ("sv", "Hej! Jag är här för att lyssna och stödja dig. Hur mår du idag?"),
   ("no", "Hei! Jeg er her for å lytte og støtte deg. Hvordan har du det i dag?"),
   ("da", "Hej! Jeg er her for at lytte og støtte dig. Hvordan har du det i dag?"),
   ("fi", "Hei! Olen täällä kuuntelemassa ja tukemassa sinua. Miltä sinusta tuntuu tänään?"),
   ("pl", "Cześć! jestem tutaj, żeby słuchać i wspierać cię. Jak się dziś czujesz?"),
   ("tr", "Merhaba! Seni dinlemek ve desteklemek için buradayım. Bugün nasıl hissediyorsun?"),
   ("he", "שלום! אני כאן כדי להקשיב ולתמוך בך. איך אתה מרגיש היום?")]

/-- `LanguageDetector.get_greeting(language_code)`:
`language_greetings.get(language_code, language_greetings['en'])`. -/
def get_greeting (language_code : String) : String :=
  dictGet language_greetings language_code greeting_en

/-- `AIServiceException` (exceptions.py lines 18-21): carries the user-facing
message; its status code is the fixed 503. -/
structure AIServiceException where
  message : String
deriving DecidableEq, Repr

/-- Status code of every `AIServiceException` (`OpenHeartException.__init__`
with `status_code=503`). -/
def AIServiceException.status_code : Nat := 503

/-- Outcome of the external `client.chat.completions.create` call in
`generate_response`: the completion text, or one of the three exception
classes the code catches, each carrying the raw upstream detail. -/
inductive UpstreamResult where
  | ok (text : String)
  | rateLimited (detail : String)
  | apiError (detail : String)
  | unknownError (detail : String)
deriving DecidableEq, Repr

/-- Whether the upstream call raised (any of the three classes). -/
def UpstreamResult.isError : UpstreamResult → Bool
  | .ok _ => false
  | _ => true

/-- Message of the `AIServiceException` raised on `openai.RateLimitError`
(ai_companion.py line 70). -/
def rate_limit_message : String :=
  "I'm receiving too many requests right now. Please try again in a moment."

/-- Message of the `AIServiceException` raised on `openai.APIError` (line 73). -/
def api_error_message : String :=
  "I'm having trouble connecting to my AI service. Please try again."

/-- Message of the `AIServiceException` raised on any other `Exception` (line 76). -/
def unexpected_error_message : String :=
  "I'm experiencing technical difficulties. Please try again later."

/-- The message sequence `generate_response` sends upstream (lines 30-38):
`[{"role": "system", ...}] + history + [{"role": "user", ...}]`. -/
def build_messages (language : String) (user_context : Option UserContext)
    (history : List Entry) (user_message : String) : List Entry :=
  ⟨"system", get_system_prompt language user_context⟩ ::
    (history ++ [⟨"user", user_message⟩])

/-- `AICompanion.generate_response` (lines 20-76), with the upstream API as
the oracle `call`. On success the user turn and the reply are appended to the
caller's history and the history is truncated to its most recent
`max_history_length` entries (`history[-self.max_history_length:]`); on
failure the matching `AIServiceException` is raised and the store is left as
it was (the only mutation, lines 54-63, happens after the call returns). -/
def generate_response (call : List Entry → UpstreamResult) (user_message : String)
    (language : String) (user_id : String) (user_context : Option UserContext)
    (store : ConversationStore) :
    Except AIServiceException String × ConversationStore :=
  let history := store user_id
  match call (build_messages language user_context history user_message) with
  | .ok ai_response =>
    let history := history ++ [⟨"user", user_message⟩, ⟨"assistant", ai_response⟩]
    let history := if history.length > max_history_length then
        history.drop (history.length - max_history_length) else history
    (.ok ai_response, storeSet store user_id history)
  | .rateLimited _ => (.error ⟨rate_limit_message⟩, store)
  | .apiError _ => (.error ⟨api_error_message⟩, store)
  | .unknownError _ => (.error ⟨unexpected_error_message⟩, store)

/-- An `AISession` row (models.py) as the session routes read and write it.
`session_id` is the route-visible identifier; timestamps are seconds. -/
structure AISessionRec where
  session_id : String
  user_id : String
  language : String
  status : String
  meeting_id : Option String
  message_count : Nat
  created_at : Nat
  ended_at : Option Nat
  duration_minutes : Option Nat
deriving DecidableEq, Repr

/-- A `SessionMessage` row. `audio_duration` keeps the byte count of the
audio payload whose Python value is `bytes / 16000` (a float irrelevant to
every claim); `none` for text messages. -/
structure SessionMessageRec where
  session_id : String
  role : String
  content : String
  language : String
  audio_bytes : Option Nat
deriving DecidableEq, Repr

/-- The active-session query the message/end routes share:
`AISession.session_id == session_id, AISession.user_id == current_user.id,
AISession.status == "active"` (`.first()` = first match). -/
def find_active_session (db : List AISessionRec) (session_id user_id : String) :
    Option AISessionRec :=
  db.find? (fun s =>
    s.session_id == session_id && s.user_id == user_id && s.status == "active")

/-- In-place ORM mutation of the first row matching `p`. -/
def updateFirst (p : AISessionRec → Bool) (f : AISessionRec → AISessionRec) :
    List AISessionRec → List AISessionRec
  | [] => []
  | s :: rest => if p s then f s :: rest else s :: updateFirst p f rest

/-- How a FastAPI route's own `try`/`except` surfaces a failure to the caller:
an `HTTPException` (status, detail), a re-raised `VoiceProcessingException`
or a re-raised `AIServiceException`. -/
inductive RouteError where
  | httpExc (status_code : Nat) (detail : String)
  | voiceExc (message : String)
  | aiExc (message : String)
deriving DecidableEq, Repr

/-- The mutation `end_session` applies to the found row (ai_sessions.py lines
394-400): status `"completed"`, end time stamped, and
`duration_minutes = int((ended_at - created_at).total_seconds() / 60)` —
truncating division by 60 of the elapsed seconds. -/
def finalize_session (now : Nat) (s : AISessionRec) : AISessionRec :=
  { s with status := "completed", ended_at := some now,
           duration_minutes := some ((now - s.created_at) / 60) }

/-- `end_session` (ai_sessions.py lines 369-417). When no active session
matches, the route raises `HTTPException(404)` inside its own `try`, which its
`except Exception` clause catches and converts to
`HTTPException(500, "Failed to end session")` — that converted error is what
the caller observes. On the active path the row is finalized
(`finalize_session`), the response carries the computed duration, and the
user's in-memory conversation history is cleared. -/
def end_session (now : Nat) (session_id user_id : String) (db : List AISessionRec)
    (store : ConversationStore) :
    Except RouteError (String × Nat) × List AISessionRec × ConversationStore :=
  match find_active_session db session_id user_id with
  | none => (.error (.httpExc 500 "Failed to end session"), db, store)
  | some s =>
    (.ok ("Session ended successfully", (now - s.created_at) / 60),
     updateFirst
       (fun t => t.session_id == session_id && t.user_id == user_id && t.status == "active")
       (finalize_session now) db,
     clear_conversation_history store user_id)

/-- A `UserProfile` row as read by the session routes. -/
structure UserProfileRec where
  display_name : Option String
  interests : Option String
  emotional_needs : Option String
deriving DecidableEq, Repr

/-- The meeting dict returned by `meeting_integration.create_meeting`. -/
structure MeetingInfo where
  id : String
  platform : String
deriving DecidableEq, Repr

/-- Python `a or b` on an optional string: `None` and `""` fall through. -/
def pyOr (a : Option String) (b : String) : String :=
  match a with
  | some s => if s == "" then b else s
  | none => b

/-- `start_ai_session` (ai_sessions.py lines 69-138), happy path. The
effective language is `preferred_language or current_user.preferred_language
or "en"`; an `AISession` row is created active; the localized greeting is
persisted as a `SessionMessage` with role `"assistant"`. The route also
builds a `user_context` dict from the profile, but the greeting lookup takes
only the language, and neither it, `create_meeting` nor
`join_meeting_as_bot` (which only flips the meeting's status and spawns an
idle placeholder loop) ever touches `ai_companion.conversation_history`, so
the store is returned unchanged. -/
def start_ai_session (user_id session_id : String) (preferred_language : Option String)
    (user_preferred_language : Option String) (meeting : MeetingInfo)
    (now : Nat) (db : List AISessionRec) (msgs : List SessionMessageRec)
    (store : ConversationStore) :
    AISessionRec × List AISessionRec × List SessionMessageRec × ConversationStore :=
  let language := pyOr preferred_language (pyOr user_preferred_language "en")
  let ai_session : AISessionRec :=
    { session_id := session_id, user_id := user_id, language := language,
      status := "active", meeting_id := some meeting.id, message_count := 0,
      created_at := now, ended_at := none, duration_minutes := none }
  let welcome_message := get_greeting language
  let welcome_msg : SessionMessageRec :=
    { session_id := session_id, role := "assistant", content := welcome_message,
      language := language, audio_bytes := none }
  (ai_session, db ++ [ai_session], msgs ++ [welcome_msg], store)

/-- The body of the `VoiceMessageResponse` returned by `process_voice_message`. -/
structure VoiceMessageResponse where
  user_message : String
  ai_response : String
  language : String
  response_audio : List Nat
  session_id : String
deriving DecidableEq, Repr

/-- `process_voice_message` (ai_sessions.py lines 221-333). The external
collaborators are oracles: `validate_audio_format`, `speech_to_text` and
`text_to_speech` (each `Except` error is a raised
`VoiceProcessingException`), `detect_language`, and the chat-completion
`call` threaded to `generate_response`.

Control flow of the route's `try`/`except`: the `HTTPException`s it raises
itself — 404 no active session, 403 not premium, 400 invalid audio format —
are caught by its final `except Exception` clause and re-raised as
`HTTPException(500, "Failed to process voice message")`; only
`VoiceProcessingException` and `AIServiceException` propagate as themselves.
On any raise the pending row adds are never committed (the returned row
lists are the inputs), while the in-memory store keeps whatever
`generate_response` committed to it before the raise. On success both turn
rows are persisted and `message_count` grows by 2. -/
def process_voice_message (session_id user_id : String) (is_premium : Bool)
    (validate_audio_format : List Nat → Bool)
    (speech_to_text : List Nat → String → Except String String)
    (detect_language : String → String)
    (call : List Entry → UpstreamResult)
    (text_to_speech : String → String → Except String (List Nat))
    (user_context : Option UserContext) (audio_data : List Nat)
    (db : List AISessionRec) (msgs : List SessionMessageRec)
    (store : ConversationStore) :
    Except RouteError VoiceMessageResponse × List AISessionRec ×
      List SessionMessageRec × ConversationStore :=
  match find_active_session db session_id user_id with
  | none => (.error (.httpExc 500 "Failed to process voice message"), db, msgs, store)
  | some ai_session =>
    if !is_premium then
      (.error (.httpExc 500 "Failed to process voice message"), db, msgs, store)
    else if !validate_audio_format audio_data then
      (.error (.httpExc 500 "Failed to process voice message"), db, msgs, store)
    else
      match speech_to_text audio_data ai_session.language with
      | .error m => (.error (.voiceExc m), db, msgs, store)
      | .ok user_text =>
        let detected_language := detect_language user_text
        let user_row : SessionMessageRec :=
          { session_id := session_id, role := "user", content := user_text,
            language := detected_language, audio_bytes := some audio_data.length }
        match generate_response call user_text detected_language user_id user_context store with
        | (.error e, store') => (.error (.aiExc e.message), db, msgs, store')
        | (.ok ai_response, store') =>
          match text_to_speech ai_response detected_language with
          | .error m => (.error (.voiceExc m), db, msgs, store')
          | .ok response_audio =>
            let ai_row : SessionMessageRec :=
              { session_id := session_id, role := "assistant", content := ai_response,
                language := detected_language, audio_bytes := some response_audio.length }
            (.ok { user_message := user_text, ai_response := ai_response,
                   language := detected_language, response_audio := response_audio,
                   session_id := session_id },
             updateFirst
               (fun t => t.session_id == session_id && t.user_id == user_id &&
                         t.status == "active")
               (fun t => { t with message_count := t.message_count + 2 }) db,
             msgs ++ [user_row, ai_row], store')

/-- One successful text exchange as claim C1 quantifies over it: the user's
message, the per-message detected language and context, and the upstream
completion the oracle returns for it. -/
structure ExchangeInput where
  user_message : String
  language : String
  user_context : Option UserContext
  reply : String

/-- Run a sequence of successful `generate_response` calls for one user,
threading the conversation store. -/
def runExchanges (user_id : String) : ConversationStore → List ExchangeInput → ConversationStore
  | store, [] => store
  | store, e :: rest =>
    runExchanges user_id
      (generate_response (fun _ => .ok e.reply) e.user_message e.language user_id
        e.user_context store).2 rest

/-- The entries a list of exchanges inserts, in chronological order:
a user turn then an assistant turn per exchange. -/
def exchangeEntries (es : List ExchangeInput) : List Entry :=
  (es.map (fun e => [⟨"user", e.user_message⟩, ⟨"assistant", e.reply⟩])).flatten

/-- The most recent `n` elements of a list (Python `l[-n:]` for nonempty `n`). -/
def lastN (n : Nat) (l : List α) : List α := l.drop (l.length - n)

theorem char_toNat_ofNat_upper {n : Nat} (h1 : 65 ≤ n) (h2 : n ≤ 90) :
    (Char.ofNat (n + 32)).toNat = n + 32 := by
  interval_cases n <;> rfl

theorem pyLowerChar_idem (c : Char) : pyLowerChar (pyLowerChar c) = pyLowerChar c := by
  unfold pyLowerChar
  by_cases h : 65 ≤ c.toNat ∧ c.toNat ≤ 90
  · rw [if_pos h, if_neg]
    rw [char_toNat_ofNat_upper h.1 h.2]
    omega
  · rw [if_neg h, if_neg h]

theorem pyLower_idem (s : String) : pyLower (pyLower s) = pyLower s := by
  show String.mk ((String.mk (s.toList.map pyLowerChar)).toList.map pyLowerChar) = _
  have : (String.mk (s.toList.map pyLowerChar)).toList = s.toList.map pyLowerChar := rfl
  rw [this, List.map_map]
  exact congrArg String.mk (List.map_congr_left fun c _ => pyLowerChar_idem c)

/-- C7: `is_crisis_message` is case-insensitive — for every message `s` it
agrees with itself on `lowercase(s)`; both casings of "I want to DIE" are
flagged. The function is pure by construction in this embedding: it reads
only its argument and the fixed keyword table. -/
theorem is_crisis_message_case_insensitive :
    (∀ s : String, is_crisis_message s = is_crisis_message (pyLower s)) ∧
      is_crisis_message "I want to DIE" = true ∧
      is_crisis_message "i want to die" = true := by
  refine ⟨fun s => ?_, by decide, by decide⟩
  unfold is_crisis_message
  rw [pyLower_idem]

/-- C9: every supported language code has a non-empty greeting, and no two
supported codes share the same greeting text. -/
theorem get_greeting_nonempty_and_distinct :
    (∀ code ∈ supported_codes, get_greeting code ≠ "") ∧
      (supported_codes.map get_greeting).Nodup := by
  constructor
  · decide
  · decide

/-- Every key of `base_prompts` is a supported language code. -/
theorem base_prompts_keys_supported :
    base_prompts.all (fun p => is_supported p.1) = true := by decide

theorem base_prompts_find?_eq_none {code : String} (h : is_supported code = false) :
    base_prompts.find? (fun p => p.1 == code) = none := by
  rw [List.find?_eq_none]
  intro p hp hb
  have hk : is_supported p.1 = true :=
    List.all_eq_true.mp base_prompts_keys_supported p hp
  have hpc : p.1 = code := by
    simpa using hb
  rw [hpc] at hk
  rw [hk] at h
  cases h

/-- C4: for every language code outside the supported set,
`get_system_prompt` silently returns exactly what it returns for the default
code `"en"`, for every user context (the function is total — no error). -/
theorem get_system_prompt_unsupported (code : String) (h : is_supported code = false)
    (ctx : Option UserContext) :
    get_system_prompt code ctx = get_system_prompt "en" ctx := by
  unfold get_system_prompt dictGet
  rw [base_prompts_find?_eq_none h]
  have hen : base_prompts.find? (fun p => p.1 == "en") = some ("en", prompt_en) := rfl
  rw [hen]

/-- Witness for C4 at the concrete unsupported code `"xx"`. -/
theorem get_system_prompt_unsupported_witness :
    is_supported "xx" = false ∧
      get_system_prompt "xx"
          (some { preferred_name := some "Ana", interests := some "art",
                  emotional_needs := none }) =
        get_system_prompt "en"
          (some { preferred_name := some "Ana", interests := some "art",
                  emotional_needs := none }) :=
  ⟨by decide, get_system_prompt_unsupported "xx" (by decide) _⟩

/-- The ten supported codes that `base_prompts` has no entry for. -/
def codes_without_prompt : List String :=
  ["ar", "hi", "nl", "sv", "no", "da", "fi", "pl", "tr", "he"]

/-- C10: each of the ten codes in `codes_without_prompt` is supported and has
its own localized greeting (different from the English one), yet
`get_system_prompt` falls back to exactly the English prompt for it, with
the same context clauses appended. -/
theorem get_system_prompt_gap (code : String) (h : code ∈ codes_without_prompt)
    (ctx : Option UserContext) :
    is_supported code = true ∧
      get_system_prompt code ctx = get_system_prompt "en" ctx ∧
      get_greeting code ≠ get_greeting "en" := by
  fin_cases h <;> exact ⟨by decide, rfl, by decide⟩

/-- Witness for C10 at the concrete code `"ar"`. -/
theorem get_system_prompt_gap_witness :
    "ar" ∈ codes_without_prompt ∧
      (is_supported "ar" = true ∧
        get_system_prompt "ar" none = get_system_prompt "en" none ∧
        get_greeting "ar" ≠ get_greeting "en") :=
  ⟨by decide, get_system_prompt_gap "ar" (by decide) none⟩

/-- C8: a failing upstream call is classified into exactly three classes and
each class raises `AIServiceException` with its own fixed user-safe message:
the message is a constant of the class — independent of the raw upstream
detail, which therefore never reaches the caller — and the three constants
are pairwise distinct. -/
theorem generate_response_error_classes :
    (∀ (detail user_message language user_id : String) (ctx : Option UserContext)
        (store : ConversationStore),
      (generate_response (fun _ => .rateLimited detail) user_message language user_id
          ctx store).1 = .error ⟨rate_limit_message⟩ ∧
      (generate_response (fun _ => .apiError detail) user_message language user_id
          ctx store).1 = .error ⟨api_error_message⟩ ∧
      (generate_response (fun _ => .unknownError detail) user_message language user_id
          ctx store).1 = .error ⟨unexpected_error_message⟩) ∧
      rate_limit_message ≠ api_error_message ∧
      rate_limit_message ≠ unexpected_error_message ∧
      api_error_message ≠ unexpected_error_message := by
  exact ⟨fun _ _ _ _ _ _ => ⟨rfl, rfl, rfl⟩, by decide, by decide, by decide⟩

/-- C2: a `generate_response` call whose upstream invocation fails (any of
the three classified errors) leaves the whole conversation store — in
particular this user's history — exactly as it was: no partial append of the
user's turn. -/
theorem generate_response_failure_frame (call : List Entry → UpstreamResult)
    (user_message language user_id : String) (ctx : Option UserContext)
    (store : ConversationStore)
    (h : (call (build_messages language ctx (store user_id) user_message)).isError = true) :
    (generate_response call user_message language user_id ctx store).2 = store := by
  unfold generate_response
  cases hc : call (build_messages language ctx (store user_id) user_message) with
  | ok t => rw [hc] at h; cases h
  | rateLimited d => simp only [hc]
  | apiError d => simp only [hc]
  | unknownError d => simp only [hc]

/-- Witness for C2: a concrete rate-limited call on a concrete one-entry
history changes nothing. -/
theorem generate_response_failure_frame_witness :
    ((fun _ => UpstreamResult.rateLimited "429 raw payload" :
        List Entry → UpstreamResult)
          (build_messages "en" none
            ((storeSet emptyStore "u1" [⟨"user", "hi"⟩]) "u1") "hello")).isError = true ∧
      (generate_response (fun _ => .rateLimited "429 raw payload") "hello" "en" "u1"
          none (storeSet emptyStore "u1" [⟨"user", "hi"⟩])).2 =
        storeSet emptyStore "u1" [⟨"user", "hi"⟩] :=
  ⟨rfl, generate_response_failure_frame _ "hello" "en" "u1" none _ rfl⟩

theorem lastN_of_le {l : List α} {n : Nat} (h : l.length ≤ n) : lastN n l = l := by
  unfold lastN
  rw [Nat.sub_eq_zero_of_le h, List.drop_zero]

theorem lastN_length (n : Nat) (l : List α) : (lastN n l).length = min l.length n := by
  unfold lastN
  rw [List.length_drop]
  omega

theorem lastN_append_lastN (n : Nat) (xs ys : List α) :
    lastN n (lastN n xs ++ ys) = lastN n (xs ++ ys) := by
  rcases Nat.le_total xs.length n with h | h
  · rw [lastN_of_le h]
  · unfold lastN
    simp only [List.length_append, List.length_drop,
      List.drop_append_eq_append_drop, List.drop_drop]
    congr 2 <;> omega

/-- The truncation line of `generate_response` (`history[-max_history_length:]`
guarded by the length test) keeps exactly the most recent cap entries. -/
theorem trunc_eq_lastN (l : List Entry) :
    (if l.length > max_history_length then
        l.drop (l.length - max_history_length) else l) =
      lastN max_history_length l := by
  by_cases h : l.length > max_history_length
  · rw [if_pos h]
    rfl
  · rw [if_neg h, lastN_of_le (by omega)]

/-- One successful `generate_response` call rewrites this user's history to
the most recent cap entries of (old history ++ the new user/assistant pair). -/
theorem generate_response_ok_store (e : ExchangeInput) (user_id : String)
    (store : ConversationStore) :
    (generate_response (fun _ => .ok e.reply) e.user_message e.language user_id
        e.user_context store).2 user_id =
      lastN max_history_length
        (store user_id ++ [⟨"user", e.user_message⟩, ⟨"assistant", e.reply⟩]) := by
  show storeSet store user_id _ user_id = _
  rw [storeSet, if_pos rfl, trunc_eq_lastN]

theorem exchangeEntries_cons (e : ExchangeInput) (es : List ExchangeInput) :
    exchangeEntries (e :: es) =
      ⟨"user", e.user_message⟩ :: ⟨"assistant", e.reply⟩ :: exchangeEntries es := rfl

theorem exchangeEntries_length (es : List ExchangeInput) :
    (exchangeEntries es).length = 2 * es.length := by
  induction es with
  | nil => rfl
  | cons e rest ih =>
    rw [exchangeEntries_cons]
    simp only [List.length_cons, List.length_cons, ih, List.length_cons]
    omega

theorem runExchanges_history (user_id : String) (es : List ExchangeInput) :
    ∀ store : ConversationStore, (store user_id).length ≤ max_history_length →
      runExchanges user_id store es user_id =
        lastN max_history_length (store user_id ++ exchangeEntries es) := by
  induction es with
  | nil =>
    intro store h
    show store user_id = _
    rw [exchangeEntries, List.map_nil, List.flatten_nil, List.append_nil, lastN_of_le h]
  | cons e rest ih =>
    intro store h
    show runExchanges user_id
        (generate_response (fun _ => .ok e.reply) e.user_message e.language user_id
          e.user_context store).2 rest user_id = _
    rw [ih _ (by rw [generate_response_ok_store, lastN_length]; omega),
      generate_response_ok_store, lastN_append_lastN, exchangeEntries_cons]
    simp only [List.append_assoc, List.cons_append, List.nil_append]

/-- C1: starting from the empty history, a sequence of N successful
`generate_response` calls leaves `historyFor(userId)` equal to the most
recent cap entries of the chronologically interleaved (user, assistant)
pairs, so of length min(2N, 20); moreover every single successful append
step maps a history of length L to one of length min(L+2, 20), preserving
the length-≤-cap invariant with oldest-first eviction. -/
theorem conversation_history_fifo (user_id : String) (es : List ExchangeInput) :
    runExchanges user_id emptyStore es user_id =
        lastN max_history_length (exchangeEntries es) ∧
      (runExchanges user_id emptyStore es user_id).length =
        min (2 * es.length) max_history_length ∧
      ∀ (store : ConversationStore) (e : ExchangeInput),
        ((generate_response (fun _ => .ok e.reply) e.user_message e.language user_id
            e.user_context store).2 user_id).length =
          min ((store user_id).length + 2) max_history_length := by
  have h0 : runExchanges user_id emptyStore es user_id =
      lastN max_history_length (exchangeEntries es) := by
    rw [runExchanges_history user_id es emptyStore (by simp [emptyStore])]
    rfl
  refine ⟨h0, ?_, ?_⟩
  · rw [h0, lastN_length, exchangeEntries_length]
  · intro store e
    rw [generate_response_ok_store, lastN_length, List.length_append]
    rfl

/-- The row `end_session` mutates is in the committed table. -/
theorem updateFirst_mem {p : AISessionRec → Bool} {f : AISessionRec → AISessionRec}
    {db : List AISessionRec} {s : AISessionRec} (h : db.find? p = some s) :
    f s ∈ updateFirst p f db := by
  induction db with
  | nil => cases h
  | cons t rest ih =>
    unfold updateFirst
    by_cases hp : p t
    · rw [if_pos hp]
      rw [List.find?_cons_of_pos _ hp, Option.some.injEq] at h
      rw [h]
      exact List.mem_cons_self _ _
    · rw [if_neg hp]
      rw [List.find?_cons_of_neg _ hp] at h
      exact List.mem_cons_of_mem _ (ih h)

/-- C3 (amended): ending an active session marks the found row `"completed"`,
stamps the end time, sets `durationMinutes` to the TRUNCATED (floor, not
rounded) minute count `(endedAt − createdAt) / 60`, returns that duration,
and empties this user's conversation store. -/
theorem end_session_completes (now : Nat) (session_id user_id : String)
    (db : List AISessionRec) (store : ConversationStore) (s : AISessionRec)
    (h : find_active_session db session_id user_id = some s) :
    (end_session now session_id user_id db store).1 =
        .ok ("Session ended successfully", (now - s.created_at) / 60) ∧
      finalize_session now s ∈ (end_session now session_id user_id db store).2.1 ∧
      (finalize_session now s).status = "completed" ∧
      (finalize_session now s).ended_at = some now ∧
      (finalize_session now s).duration_minutes = some ((now - s.created_at) / 60) ∧
      (end_session now session_id user_id db store).2.2 user_id = [] := by
  unfold end_session
  rw [h]
  refine ⟨rfl, updateFirst_mem h, rfl, rfl, rfl, ?_⟩
  show (if user_id = user_id then [] else store user_id) = []
  rw [if_pos rfl]

/-- A concrete active session created at second 0. -/
def session_fixture : AISessionRec :=
  { session_id := "sess1", user_id := "user1", language := "en", status := "active",
    meeting_id := none, message_count := 2, created_at := 0, ended_at := none,
    duration_minutes := none }

/-- Modelled from the spec: `durationMinutes = round((endedAt−createdAt) in
minutes)` — rounding the elapsed minutes to the nearest integer (half up; at
90 s every rounding convention gives 2). The code has no such rounding: it
truncates with `int(...)`. -/
def round_minutes (seconds : Nat) : Nat := (seconds + 30) / 60

/-- Counterexample to C3 as stated: ending the fixture session 90 seconds
after creation stores `durationMinutes = 1` (truncation of 1.5), while
rounding 1.5 minutes gives 2. -/
theorem end_session_rounding_counterexample :
    (end_session 90 "sess1" "user1" [session_fixture] emptyStore).2.1.map
        AISessionRec.duration_minutes = [some 1] ∧
      round_minutes (90 - session_fixture.created_at) = 2 ∧ (1 : Nat) ≠ 2 := by
  decide

/-- Witness for C3 (amended) on the fixture session. -/
theorem end_session_completes_witness :
    find_active_session [session_fixture] "sess1" "user1" = some session_fixture ∧
      (end_session 90 "sess1" "user1" [session_fixture] emptyStore).1 =
        .ok ("Session ended successfully", (90 - session_fixture.created_at) / 60) ∧
      (end_session 90 "sess1" "user1" [session_fixture] emptyStore).2.2 "user1" = [] :=
  ⟨rfl,
   (end_session_completes 90 "sess1" "user1" [session_fixture] emptyStore
      session_fixture rfl).1,
   (end_session_completes 90 "sess1" "user1" [session_fixture] emptyStore
      session_fixture rfl).2.2.2.2.2⟩

/-- C5: starting a session returns the conversation store untouched (so any
user's in-memory history — empty for a fresh user — is exactly what it was),
while appending exactly one persisted `SessionMessage`: the localized
greeting for the effective language, with role `"assistant"`; for a fresh
session id it is the session's first (and only) persisted message. -/
theorem start_session_greeting_frame (user_id session_id : String)
    (preferred user_pref : Option String) (meeting : MeetingInfo) (now : Nat)
    (db : List AISessionRec) (msgs : List SessionMessageRec)
    (store : ConversationStore) :
    (start_ai_session user_id session_id preferred user_pref meeting now db msgs
        store).2.2.2 = store ∧
      (start_ai_session user_id session_id preferred user_pref meeting now db msgs
          store).2.2.1 =
        msgs ++ [{ session_id := session_id, role := "assistant",
                   content := get_greeting (pyOr preferred (pyOr user_pref "en")),
                   language := pyOr preferred (pyOr user_pref "en"),
                   audio_bytes := none }] ∧
      (msgs.filter (fun m => m.session_id == session_id) = [] →
        (start_ai_session user_id session_id preferred user_pref meeting now db msgs
            store).2.2.1.filter (fun m => m.session_id == session_id) =
          [{ session_id := session_id, role := "assistant",
             content := get_greeting (pyOr preferred (pyOr user_pref "en")),
             language := pyOr preferred (pyOr user_pref "en"),
             audio_bytes := none }]) := by
  refine ⟨rfl, rfl, fun h => ?_⟩
  show (msgs ++ [_]).filter _ = _
  rw [List.filter_append, h, List.nil_append]
  rw [List.filter, BEq.refl]
  rfl

/-- C6 as the code actually behaves: a voice message from a non-premium user
with an active session fails — the route raises `HTTPException(403)` but its
own `except Exception` clause converts that to
`HTTPException(500, "Failed to process voice message")` — and leaves the
session table, the persisted message rows and the conversation store all
unchanged, whatever the audio payload. -/
theorem voice_message_non_premium (session_id user_id : String)
    (validate_audio_format : List Nat → Bool)
    (speech_to_text : List Nat → String → Except String String)
    (detect_language : String → String) (call : List Entry → UpstreamResult)
    (text_to_speech : String → String → Except String (List Nat))
    (user_context : Option UserContext) (audio_data : List Nat)
    (db : List AISessionRec) (msgs : List SessionMessageRec)
    (store : ConversationStore) (s : AISessionRec)
    (h : find_active_session db session_id user_id = some s) :
    process_voice_message session_id user_id false validate_audio_format
        speech_to_text detect_language call text_to_speech user_context audio_data
        db msgs store =
      (.error (.httpExc 500 "Failed to process voice message"), db, msgs, store) := by
  unfold process_voice_message
  rw [h]
  rfl

/-- Witness for C6 on the fixture session with a concrete audio payload. -/
theorem voice_message_non_premium_witness :
    find_active_session [session_fixture] "sess1" "user1" = some session_fixture ∧
      process_voice_message "sess1" "user1" false (fun _ => true)
          (fun _ _ => .ok "hello") (fun _ => "en") (fun _ => .ok "hi there")
          (fun _ _ => .ok [0, 1]) none [7, 7, 7] [session_fixture] [] emptyStore =
        (.error (.httpExc 500 "Failed to process voice message"), [session_fixture],
          [], emptyStore) :=
  ⟨rfl,
   voice_message_non_premium "sess1" "user1" (fun _ => true) (fun _ _ => .ok "hello")
     (fun _ => "en") (fun _ => .ok "hi there") (fun _ _ => .ok [0, 1]) none
     [7, 7, 7] [session_fixture] [] emptyStore session_fixture rfl⟩

end OpenHeart
